import Mathlib

/-!
Verification development for the vnt peer-to-peer overlay network.

The definitions below are a shallow embedding of the Rust sources:
`vnt/src/channel/punch.rs`, `vnt/src/handle/handshaker.rs`,
`vnt/src/handle/recv_data/client.rs`, `vnt/src/handle/maintain/punch.rs`
and `vnt/src/ip_proxy/tcp_proxy.rs`.  Machine integers are modelled as
`Nat` (u8/u16/u32 values stay below their bounds in every reachable
state we reason about; where wrap-around matters it is made explicit).
I/O effects are modelled as explicit traces; randomness (shuffles,
random bounds) is passed in as a parameter constrained by a permutation
hypothesis.
-/

namespace Vnt

/-- An IPv4 address as four octets (each < 256 in any real address;
the predicates below only inspect octet values). Mirrors `std::net::Ipv4Addr`. -/
structure Ipv4Addr where
  o0 : Nat
  o1 : Nat
  o2 : Nat
  o3 : Nat
deriving DecidableEq, Repr

namespace Ipv4Addr

/-- Function `Ipv4Addr::is_multicast`: 224.0.0.0/4. -/
def is_multicast (ip : Ipv4Addr) : Bool := 224 ≤ ip.o0 && ip.o0 ≤ 239

/-- Function `Ipv4Addr::is_broadcast`: 255.255.255.255. -/
def is_broadcast (ip : Ipv4Addr) : Bool :=
  ip.o0 == 255 && ip.o1 == 255 && ip.o2 == 255 && ip.o3 == 255

/-- Function `Ipv4Addr::is_unspecified`: 0.0.0.0. -/
def is_unspecified (ip : Ipv4Addr) : Bool :=
  ip.o0 == 0 && ip.o1 == 0 && ip.o2 == 0 && ip.o3 == 0

/-- Function `Ipv4Addr::is_loopback`: 127.0.0.0/8. -/
def is_loopback (ip : Ipv4Addr) : Bool := ip.o0 == 127

/-- Function `Ipv4Addr::is_private`: 10/8, 172.16/12, 192.168/16. -/
def is_private (ip : Ipv4Addr) : Bool :=
  ip.o0 == 10
    || (ip.o0 == 172 && 16 ≤ ip.o1 && ip.o1 ≤ 31)
    || (ip.o0 == 192 && ip.o1 == 168)

end Ipv4Addr

/-- An IPv6 address as eight 16-bit segments.  Mirrors `std::net::Ipv6Addr`
as far as the predicates used by `NatInfo::new` need. -/
structure Ipv6Addr where
  s0 : Nat
  s1 : Nat
  s2 : Nat
  s3 : Nat
  s4 : Nat
  s5 : Nat
  s6 : Nat
  s7 : Nat
deriving DecidableEq, Repr

namespace Ipv6Addr

/-- Function `Ipv6Addr::is_multicast`: ff00::/8. -/
def is_multicast (ip : Ipv6Addr) : Bool := 0xff00 ≤ ip.s0 && ip.s0 ≤ 0xffff

/-- Function `Ipv6Addr::is_unspecified`: `::`. -/
def is_unspecified (ip : Ipv6Addr) : Bool :=
  ip.s0 == 0 && ip.s1 == 0 && ip.s2 == 0 && ip.s3 == 0 &&
  ip.s4 == 0 && ip.s5 == 0 && ip.s6 == 0 && ip.s7 == 0

/-- Function `Ipv6Addr::is_loopback`: `::1`. -/
def is_loopback (ip : Ipv6Addr) : Bool :=
  ip.s0 == 0 && ip.s1 == 0 && ip.s2 == 0 && ip.s3 == 0 &&
  ip.s4 == 0 && ip.s5 == 0 && ip.s6 == 0 && ip.s7 == 1

end Ipv6Addr

/-- A socket address, `std::net::SocketAddr`. -/
inductive SockAddr where
  | v4 (ip : Ipv4Addr) (port : Nat)
  | v6 (ip : Ipv6Addr) (port : Nat)
deriving DecidableEq, Repr

/-- NAT classification, `channel/punch.rs` `NatType`. -/
inductive NatType where
  | Symmetric
  | Cone
deriving DecidableEq, Repr

/-- Punch model selector, `channel/punch.rs` `PunchModel`. -/
inductive PunchModel where
  | IPv4
  | IPv6
  | All
deriving DecidableEq, Repr

/-- Structure `NatInfo` in `channel/punch.rs`. -/
structure NatInfo where
  public_ips : List Ipv4Addr
  public_ports : List Nat
  public_port_range : Nat
  nat_type : NatType
  local_ipv4 : Option Ipv4Addr
  ipv6 : Option Ipv6Addr
  udp_ports : List Nat
  tcp_port : Nat
deriving DecidableEq, Repr

/-- The retain predicate in `NatInfo::new` for `public_ips`. -/
def keepPublicIp (ip : Ipv4Addr) : Bool :=
  !ip.is_multicast && !ip.is_broadcast && !ip.is_unspecified &&
  !ip.is_loopback && !ip.is_private

namespace NatInfo

/-- Constructor `NatInfo::new` (`channel/punch.rs` lines 54-94): filter `public_ips`,
force `Symmetric` when more than one public IP survives, drop a
non-usable `local_ipv4` / `ipv6`. -/
def new (public_ips : List Ipv4Addr) (public_ports : List Nat)
    (public_port_range : Nat) (local_ipv4 : Option Ipv4Addr)
    (ipv6 : Option Ipv6Addr) (udp_ports : List Nat) (tcp_port : Nat)
    (nat_type : NatType) : NatInfo :=
  let public_ips := public_ips.filter keepPublicIp
  let nat_type := if 1 < public_ips.length then NatType.Symmetric else nat_type
  let local_ipv4 :=
    match local_ipv4 with
    | some ip =>
        if ip.is_multicast || ip.is_broadcast || ip.is_unspecified || ip.is_loopback then
          none
        else
          some ip
    | none => none
  let ipv6 :=
    match ipv6 with
    | some ip =>
        if ip.is_multicast || ip.is_unspecified || ip.is_loopback then none else some ip
    | none => none
  { public_ips := public_ips
    public_ports := public_ports
    public_port_range := public_port_range
    nat_type := nat_type
    local_ipv4 := local_ipv4
    ipv6 := ipv6
    udp_ports := udp_ports
    tcp_port := tcp_port }

/-- Function `NatInfo::update_addr` (`channel/punch.rs` lines 95-107): overwrite
`public_ports[index]` when the port is nonzero and the index exists
(`List.set` is the identity out of range, exactly like `get_mut` returning
`None`), and push a fresh acceptable public IP. -/
def update_addr (n : NatInfo) (index : Nat) (ip : Ipv4Addr) (port : Nat) : NatInfo :=
  let public_ports := if port ≠ 0 then n.public_ports.set index port else n.public_ports
  let public_ips :=
    if !ip.is_multicast && !ip.is_broadcast && !ip.is_unspecified &&
        !ip.is_loopback && !ip.is_private && !n.public_ips.contains ip then
      n.public_ips ++ [ip]
    else
      n.public_ips
  { n with public_ports := public_ports, public_ips := public_ips }

/-- Function `NatInfo::local_udp_ipv4addr`. -/
def local_udp_ipv4addr (n : NatInfo) (index : Nat) : Option SockAddr :=
  if n.udp_ports.length = 0 then none
  else n.local_ipv4.map fun ip => SockAddr.v4 ip (n.udp_ports.getD (index % n.udp_ports.length) 0)

/-- Function `NatInfo::local_udp_ipv6addr`. -/
def local_udp_ipv6addr (n : NatInfo) (index : Nat) : Option SockAddr :=
  if n.udp_ports.length = 0 then none
  else n.ipv6.map fun ip => SockAddr.v6 ip (n.udp_ports.getD (index % n.udp_ports.length) 0)

/-- Function `NatInfo::local_tcp_ipv6addr`. -/
def local_tcp_ipv6addr (n : NatInfo) : Option SockAddr :=
  if n.tcp_port = 0 then none
  else n.ipv6.map fun ip => SockAddr.v6 ip n.tcp_port

/-- Function `NatInfo::local_tcp_ipv4addr`. -/
def local_tcp_ipv4addr (n : NatInfo) : Option SockAddr :=
  if n.tcp_port = 0 then none
  else n.local_ipv4.map fun ip => SockAddr.v4 ip n.tcp_port

end NatInfo

/-- The normalization property claimed of `public_ips`: no multicast,
broadcast, unspecified, loopback or private address. -/
def publicIpsFiltered (n : NatInfo) : Prop :=
  ∀ ip ∈ n.public_ips, keepPublicIp ip = true

instance (n : NatInfo) : Decidable (publicIpsFiltered n) := by
  unfold publicIpsFiltered; infer_instance

/-!
### Symmetric punch, fine-range phase
`Punch::punch` (`channel/punch.rs` lines 246-293) with the inner helper
`Punch::punch_symmetric` (lines 321-341).  `max_k1 = 60`.
-/

/-- The `min_port` computation of the fine-range phase:
`if port > range { port - range } else { 1 }`. -/
def fineMinPort (port range : Nat) : Nat :=
  if range < port then port - range else 1

/-- The `max_port` computation: `port.overflowing_add(range)` on u16,
replaced by 65535 on overflow. -/
def fineMaxPort (port range : Nat) : Nat :=
  if 65536 ≤ port + range then 65535 else port + range

/-- Quantity `max_port - min_port + 1`, the size of the candidate port window. -/
def fineSpan (port range : Nat) : Nat :=
  fineMaxPort port range - fineMinPort port range + 1

/-- The slice bound `k`: `if span > max_k1 { 60 } else { span }`. -/
def fineK (port range : Nat) : Nat :=
  if 60 < fineSpan port range then 60 else fineSpan port range

/-- The candidate vector before shuffling:
`(min_port..max_port).collect()` followed by `push(max_port)`. -/
def fineNums (port range : Nat) : List Nat :=
  List.range' (fineMinPort port range) (fineMaxPort port range - fineMinPort port range) ++
    [fineMaxPort port range]

/-- Inner loop of `Punch::punch_symmetric` over `ips` for a fixed `port`.
Returns the destinations sent, the updated `count`, and whether the
`count == max` early return fired (which skips the send of that pair). -/
def punchSymInner (port : Nat) (max : Nat) :
    List Ipv4Addr → Nat → List (Ipv4Addr × Nat) × Nat × Bool
  | [], count => ([], count, false)
  | ip :: rest, count =>
    if count + 1 = max then ([], count + 1, true)
    else
      let r := punchSymInner port max rest (count + 1)
      ((ip, port) :: r.1, r.2.1, r.2.2)

/-- Outer loop of `Punch::punch_symmetric` over `ports`, threading the
shared `count`; on the early return the result value is the current outer
index, otherwise `ports.len()` (`origLen`). -/
def punchSymOuter (ips : List Ipv4Addr) (max origLen : Nat) :
    List Nat → Nat → Nat → List (Ipv4Addr × Nat) × Nat
  | [], _, _ => ([], origLen)
  | port :: rest, idx, count =>
    let r := punchSymInner port max ips count
    if r.2.2 then (r.1, idx)
    else
      let r2 := punchSymOuter ips max origLen rest (idx + 1) r.2.1
      (r.1 ++ r2.1, r2.2)

/-- Function `Punch::punch_symmetric(ports, buf, ips, max)`: the list of
`(public_ip, port)` destinations the payload is sent to, and the returned
index. -/
def punch_symmetric (ports : List Nat) (ips : List Ipv4Addr) (max : Nat) :
    List (Ipv4Addr × Nat) × Nat :=
  punchSymOuter ips max ports.length ports 0 0

/-- The fine-range phase of `Punch::punch` for a Symmetric peer (executed
when `public_port_range < 3 * 60`): shuffle the candidate vector (the
shuffled result is passed in as `perm`), slice the first `fineK` entries
and hand them to `punch_symmetric` with `max_k1 = 60`. -/
def finePhaseSends (port range : Nat) (ips : List Ipv4Addr)
    (perm : List Nat) : List (Ipv4Addr × Nat) :=
  (punch_symmetric (perm.take (fineK port range)) ips 60).1

/-!
### Handshake rate limit — `handle/handshaker.rs`
-/

/-- Structure `Handshake` (`handshaker.rs` line 28): the single last-send instant.
Instants are modelled as a `Nat` count of milliseconds. -/
structure Handshake where
  time : Nat
deriving DecidableEq, Repr

/-- Constructor `Handshake::new()`: the stored instant starts 60 s in the past. -/
def Handshake.mkNew (now : Nat) : Handshake := ⟨now - 60000⟩

/-- An `io::Result` error (its payload is irrelevant to the claims). -/
inductive IoErr where
  | err
deriving DecidableEq, Repr

/-- Function `Handshake::send` (`handshaker.rs` lines 37-48): when less than 3 s
elapsed since the stored instant, return `Ok` without touching the
network; otherwise attempt `send_default` (outcome `sendOk`) and store
the current instant only when it succeeded.  Result: new state, whether a
request went on the wire, and the return value. -/
def Handshake.send (h : Handshake) (now : Nat) (sendOk : Bool) :
    Handshake × Bool × Except IoErr Unit :=
  if now - h.time < 3000 then (h, false, Except.ok ())
  else if sendOk then (⟨now⟩, true, Except.ok ())
  else (h, false, Except.error IoErr.err)

/-!
### Overlay packets and the route table
Modelled from the spec: the packet-codec crate (`protocol/*`) and the
route table (`channel/route.rs`) of this repository are not under `src/`;
their observable contract is taken from spec sections 3, 4.1 and 4.4.
-/

/-- Modelled from the spec: the main protocol field of the 12-byte header
(section 4.1). -/
inductive Protocol where
  | Service
  | Error
  | Control
  | IpTurn
  | OtherTurn
  | Unknown (code : Nat)
deriving DecidableEq, Repr

/-- Modelled from the spec: transport-protocol subtypes (section 4.1). -/
inductive Transport where
  | Ping
  | Pong
  | PunchRequest
  | PunchResponse
  | AddrRequest
  | AddrResponse
  | Ipv4
  | Ipv4Broadcast
  | Punch
  | Unknown (code : Nat)
deriving DecidableEq, Repr

/-- Modelled from the spec: ICMP message kinds seen by the handler. -/
inductive IcmpKind where
  | EchoRequest
  | EchoReply
  | Other (code : Nat)
deriving DecidableEq, Repr

/-- Numeric ICMP type codes (EchoRequest = 8, EchoReply = 0). -/
def icmpKindCode : IcmpKind → Nat
  | IcmpKind.EchoRequest => 8
  | IcmpKind.EchoReply => 0
  | IcmpKind.Other c => c

/-- Modelled from the spec: an ICMP message as its kind, checksum field
and abstract remaining content (identifier, sequence, data). -/
structure IcmpPkt where
  kind : IcmpKind
  checksum : Nat
  body : Nat
deriving DecidableEq, Repr

/-- Modelled from the spec: the ICMP checksum as a concrete function of
the message content (stand-in for ones-complement folding; the claims
only need that the stored checksum is recomputed from the final
content). -/
def icmpChecksum (kind : IcmpKind) (body : Nat) : Nat :=
  (icmpKindCode kind * 256 + body) % 65536

/-- Function `IcmpPacket::update_checksum`. -/
def IcmpPkt.update_checksum (p : IcmpPkt) : IcmpPkt :=
  { p with checksum := icmpChecksum p.kind p.body }

/-- Modelled from the spec: a TCP segment as the fields the proxy reads
and rewrites, with abstract remaining content. -/
structure TcpSeg where
  source_port : Nat
  destination_port : Nat
  checksum : Nat
  body : Nat
deriving DecidableEq, Repr

/-- Numeric value of an IPv4 address (big-endian octets). -/
def ipNum (ip : Ipv4Addr) : Nat :=
  ((ip.o0 * 256 + ip.o1) * 256 + ip.o2) * 256 + ip.o3

/-- Modelled from the spec: the TCP checksum over the pseudo-header and
segment, as a concrete stand-in function. -/
def tcpChecksum (pseudoSrc pseudoDst : Ipv4Addr) (sp dp body : Nat) : Nat :=
  (ipNum pseudoSrc + ipNum pseudoDst + sp * 65536 + dp + body) % 65536

/-- Modelled from the spec: the payload of an inner IPv4 packet as the
handler and the proxy view it.  Parsing an ICMP view of a malformed
payload fails (`icmpUnparsable`). -/
inductive InnerPayload where
  | icmp (p : IcmpPkt)
  | icmpUnparsable
  | tcp (p : TcpSeg)
  | raw (code : Nat)
deriving DecidableEq, Repr

/-- Protocol code carried in the inner IPv4 header for each payload. -/
def InnerPayload.protoCode : InnerPayload → Nat
  | InnerPayload.icmp _ => 1
  | InnerPayload.icmpUnparsable => 1
  | InnerPayload.tcp _ => 6
  | InnerPayload.raw c => c

/-- Modelled from the spec: an inner (tunneled) IPv4 packet. -/
structure InnerIp where
  source_ip : Ipv4Addr
  destination_ip : Ipv4Addr
  header_checksum : Nat
  payload : InnerPayload
deriving DecidableEq, Repr

/-- The check `ipv4.protocol() == Icmp` on the inner header. -/
def InnerIp.protocolIsIcmp (p : InnerIp) : Bool :=
  match p.payload with
  | InnerPayload.icmp _ => true
  | InnerPayload.icmpUnparsable => true
  | _ => false

/-- Modelled from the spec: the IPv4 header checksum as a concrete
function of the header fields. -/
def ipHeaderChecksum (src dst : Ipv4Addr) (protoCode : Nat) : Nat :=
  (ipNum src + ipNum dst + protoCode) % 65536

/-- Function `IpV4Packet::update_checksum`. -/
def InnerIp.update_checksum (p : InnerIp) : InnerIp :=
  { p with header_checksum :=
      ipHeaderChecksum p.source_ip p.destination_ip p.payload.protoCode }

/-- Modelled from the spec: wire message `PunchInfo` (section 6). -/
structure PunchInfoMsg where
  reply : Bool
  public_ip_list : List Ipv4Addr
  public_port : Nat
  public_ports : List Nat
  public_port_range : Nat
  local_ip : Ipv4Addr
  local_port : Nat
  tcp_port : Nat
  udp_ports : List Nat
  ipv6 : Option Ipv6Addr
  ipv6_port : Nat
  nat_type : NatType
deriving DecidableEq, Repr

/-- Modelled from the spec: the typed payload carried after the 12-byte
header. -/
inductive NetPayload where
  | empty
  | time16 (t : Nat)
  | inner (p : InnerIp)
  | addr (ip : Ipv4Addr) (port : Nat)
  | punchInfo (pi : PunchInfoMsg)
  | raw (code : Nat)
deriving DecidableEq, Repr

/-- Modelled from the spec: an overlay datagram — the 12-byte header
fields of section 4.1 plus its typed payload. -/
structure NetPkt where
  version : Nat
  gateway_flag : Bool
  protocol : Protocol
  transport_protocol : Transport
  ttl : Nat
  source_ttl : Nat
  source : Ipv4Addr
  destination : Ipv4Addr
  payload : NetPayload
deriving DecidableEq, Repr

/-- Modelled from the spec: `MAX_TTL` — the TTL lives in a nibble, so its
maximum is 15. -/
def MAX_TTL : Nat := 15

/-- Function `NetPacket::first_set_ttl`: set current and source TTL. -/
def NetPkt.first_set_ttl (p : NetPkt) (t : Nat) : NetPkt :=
  { p with ttl := t, source_ttl := t }

/-- Route key `{socket-index, remote-addr, is_tcp}` (spec section 3). -/
structure RouteKey where
  index : Nat
  addr : SockAddr
  is_tcp : Bool
deriving DecidableEq, Repr

/-- Modelled from the spec: a route  `(route-key, metric, rtt)`; RTT is
signed and negative means "not yet measured" (section 3). -/
structure Route where
  route_key : RouteKey
  metric : Nat
  rt : Int
deriving DecidableEq, Repr

/-- Modelled from the spec: `Route::from_default_rt` builds a route with
an unmeasured RTT. -/
def Route.from_default_rt (k : RouteKey) (metric : Nat) : Route :=
  { route_key := k, metric := metric, rt := -1 }

/-- Modelled from the spec: the route table as a flat association of
virtual IPs to routes (section 4.4). -/
abbrev RouteTable := List (Ipv4Addr × Route)

/-- Modelled from the spec: `add_route` inserts, or updates the route
with the same destination and route-key (section 4.4). -/
def add_route (t : RouteTable) (dst : Ipv4Addr) (r : Route) : RouteTable :=
  if t.any fun e => e.1 == dst && e.2.route_key == r.route_key then
    t.map fun e =>
      if e.1 == dst && e.2.route_key == r.route_key then (dst, r) else e
  else
    t ++ [(dst, r)]

/-- Modelled from the spec: `add_route_if_absent` inserts only when no
route with that destination and route-key exists (section 4.4). -/
def add_route_if_absent (t : RouteTable) (dst : Ipv4Addr) (r : Route) : RouteTable :=
  if t.any fun e => e.1 == dst && e.2.route_key == r.route_key then t
  else t ++ [(dst, r)]

/-!
### Client packet handler — `handle/recv_data/client.rs`
-/

/-- Parsed control packet, as produced by `ControlPacket::new` from the
transport subtype and payload. -/
inductive ControlPacket where
  | ping (t : Nat)
  | pong (t : Nat)
  | punchRequest
  | punchResponse
  | addrRequest
  | addrResponse (ip : Ipv4Addr) (port : Nat)
deriving DecidableEq, Repr

/-- Modelled from the spec: `ControlPacket::new` — parse the control
subtype; a malformed payload is an error. -/
def parseControl (p : NetPkt) : Except IoErr ControlPacket :=
  match p.transport_protocol, p.payload with
  | Transport.Ping, NetPayload.time16 t => Except.ok (ControlPacket.ping t)
  | Transport.Pong, NetPayload.time16 t => Except.ok (ControlPacket.pong t)
  | Transport.PunchRequest, _ => Except.ok ControlPacket.punchRequest
  | Transport.PunchResponse, _ => Except.ok ControlPacket.punchResponse
  | Transport.AddrRequest, _ => Except.ok ControlPacket.addrRequest
  | Transport.AddrResponse, NetPayload.addr ip port =>
      Except.ok (ControlPacket.addrResponse ip port)
  | _, _ => Except.error IoErr.err

/-- Observable effects of handling one inbound packet.  The route table
rides along as state; the lists accumulate in program order. -/
structure Effects where
  readTimeUpdates : List (Ipv4Addr × RouteKey)
  sends : List (NetPkt × RouteKey)
  tunWrites : List InnerIp
  routeTable : RouteTable
  peerNatInserts : List (Ipv4Addr × NatInfo)
  punchDispatch : List (Bool × Ipv4Addr × NatInfo)
deriving DecidableEq, Repr

/-- Fresh effects over a given route table. -/
def Effects.base (t : RouteTable) : Effects :=
  { readTimeUpdates := [], sends := [], tunWrites := [], routeTable := t,
    peerNatInserts := [], punchDispatch := [] }

/-- Static context of `ClientPacketHandler` plus the environment answers
it consults: the device snapshot, channel configuration, allow-list,
ip-proxy, cipher, punch queue admission and this node's NAT profile. -/
structure HandlerCtx where
  virtual_ip : Ipv4Addr
  broadcast_ip : Ipv4Addr
  relay_only : Bool
  allow : Ipv4Addr → Bool
  hasProxy : Bool
  proxy : InnerIp → Ipv4Addr → Ipv4Addr → Except IoErr (Bool × InnerIp)
  encrypt : NetPkt → Except IoErr NetPkt
  punchAccepts : Bool
  selfNat : NatInfo
  now16 : Nat

/-- The proxy-or-tun tail of `ip_turn` for an inner IPv4 packet that is
not answered in place. -/
def ClientPacketHandler.ipTurnForward (ctx : HandlerCtx) (eff : Effects)
    (pkt : NetPkt) (rk : RouteKey) (ipv4 : InnerIp) : Effects × Except IoErr Unit :=
  let destination := pkt.destination
  let source := pkt.source
  let real_dest := ipv4.destination_ip
  if real_dest ≠ destination ∧
      ¬(real_dest.is_broadcast = true ∨ real_dest.is_multicast = true ∨
        real_dest = ctx.broadcast_ip ∨ real_dest.is_unspecified = true) then
    if ctx.allow real_dest = false then (eff, Except.ok ())
    else if ctx.hasProxy then
      match ctx.proxy ipv4 source destination with
      | Except.error e => (eff, Except.error e)
      | Except.ok (true, _) => (eff, Except.ok ())
      | Except.ok (false, ipv4R) =>
          ({ eff with tunWrites := eff.tunWrites ++ [ipv4R] }, Except.ok ())
    else ({ eff with tunWrites := eff.tunWrites ++ [ipv4] }, Except.ok ())
  else ({ eff with tunWrites := eff.tunWrites ++ [ipv4] }, Except.ok ())

/-- Function `ClientPacketHandler::ip_turn` (`client.rs` lines 100-158). -/
def ClientPacketHandler.ip_turn (ctx : HandlerCtx) (eff : Effects)
    (pkt : NetPkt) (rk : RouteKey) : Effects × Except IoErr Unit :=
  let destination := pkt.destination
  let source := pkt.source
  match pkt.transport_protocol with
  | Transport.Ipv4 =>
    match pkt.payload with
    | NetPayload.inner ipv4 =>
      match ipv4.payload, decide (ipv4.destination_ip = destination) with
      | InnerPayload.icmpUnparsable, true => (eff, Except.error IoErr.err)
      | InnerPayload.icmp ic, true =>
        if ic.kind = IcmpKind.EchoRequest then
          let ic2 := IcmpPkt.update_checksum { ic with kind := IcmpKind.EchoReply }
          let ipv4A := { ipv4 with payload := InnerPayload.icmp ic2 }
          let ipv4B := InnerIp.update_checksum
            { ipv4A with source_ip := destination, destination_ip := source }
          let pkt2 := { pkt with
            payload := NetPayload.inner ipv4B,
            source := destination, destination := source }
          match ctx.encrypt pkt2 with
          | Except.error e => (eff, Except.error e)
          | Except.ok sealed =>
              ({ eff with sends := eff.sends ++ [(sealed, rk)] }, Except.ok ())
        else
          ClientPacketHandler.ipTurnForward ctx eff pkt rk ipv4
      | _, _ => ClientPacketHandler.ipTurnForward ctx eff pkt rk ipv4
    | _ => (eff, Except.error IoErr.err)
  | Transport.Ipv4Broadcast => (eff, Except.ok ())
  | _ => (eff, Except.ok ())

/-- Function `ClientPacketHandler::control` (`client.rs` lines 159-231). -/
def ClientPacketHandler.control (ctx : HandlerCtx) (eff : Effects)
    (pkt : NetPkt) (rk : RouteKey) : Effects × Except IoErr Unit :=
  let metric := pkt.source_ttl - pkt.ttl + 1
  let source := pkt.source
  match parseControl pkt with
  | Except.error e => (eff, Except.error e)
  | Except.ok cp =>
    match cp with
    | ControlPacket.ping _ =>
      let pkt2 := NetPkt.first_set_ttl
        { pkt with
          transport_protocol := Transport.Pong,
          source := ctx.virtual_ip, destination := source } MAX_TTL
      match ctx.encrypt pkt2 with
      | Except.error e => (eff, Except.error e)
      | Except.ok sealed =>
        ({ eff with
            sends := eff.sends ++ [(sealed, rk)],
            routeTable := add_route_if_absent eff.routeTable source
              (Route.from_default_rt rk metric) }, Except.ok ())
    | ControlPacket.pong t =>
      if ctx.now16 < t then (eff, Except.ok ())
      else
        ({ eff with
            routeTable := add_route eff.routeTable source
              { route_key := rk, metric := metric,
                rt := Int.ofNat (ctx.now16 - t) } }, Except.ok ())
    | ControlPacket.punchRequest =>
      if ctx.relay_only then (eff, Except.ok ())
      else
        let pkt2 := NetPkt.first_set_ttl
          { pkt with
            transport_protocol := Transport.PunchResponse,
            source := ctx.virtual_ip, destination := source } 1
        match ctx.encrypt pkt2 with
        | Except.error e => (eff, Except.error e)
        | Except.ok sealed =>
          ({ eff with
              sends := eff.sends ++ [(sealed, rk)],
              routeTable := add_route_if_absent eff.routeTable source
                (Route.from_default_rt rk 1) }, Except.ok ())
    | ControlPacket.punchResponse =>
      if ctx.relay_only then (eff, Except.ok ())
      else
        ({ eff with
            routeTable := add_route_if_absent eff.routeTable source
              (Route.from_default_rt rk 1) }, Except.ok ())
    | ControlPacket.addrRequest =>
      match rk.addr with
      | SockAddr.v4 ip port =>
        let rpkt : NetPkt :=
          { version := 1, gateway_flag := false, protocol := Protocol.Control,
            transport_protocol := Transport.AddrResponse, ttl := MAX_TTL,
            source_ttl := MAX_TTL, source := ctx.virtual_ip,
            destination := source, payload := NetPayload.addr ip port }
        match ctx.encrypt rpkt with
        | Except.error e => (eff, Except.error e)
        | Except.ok sealed =>
            ({ eff with sends := eff.sends ++ [(sealed, rk)] }, Except.ok ())
      | SockAddr.v6 _ _ => (eff, Except.ok ())
    | ControlPacket.addrResponse _ _ => (eff, Except.ok ())

/-- Construct the reply `PunchInfo` from this node's NAT profile
(`client.rs` lines 284-307). -/
def mkPunchReply (n : NatInfo) : PunchInfoMsg :=
  { reply := true
    public_ip_list := n.public_ips
    public_port := n.public_ports.headD 0
    public_ports := n.public_ports
    public_port_range := n.public_port_range
    local_ip := n.local_ipv4.getD (Ipv4Addr.mk 0 0 0 0)
    local_port := n.udp_ports.headD 0
    tcp_port := n.tcp_port
    udp_ports := n.udp_ports
    ipv6 := n.ipv6
    ipv6_port := match n.ipv6 with | some _ => n.udp_ports.headD 0 | none => 0
    nat_type := n.nat_type }

/-- Function `ClientPacketHandler::other_turn` (`client.rs` lines 232-333). -/
def ClientPacketHandler.other_turn (ctx : HandlerCtx) (eff : Effects)
    (pkt : NetPkt) (rk : RouteKey) : Effects × Except IoErr Unit :=
  if ctx.relay_only then (eff, Except.ok ())
  else
    let source := pkt.source
    match pkt.transport_protocol with
    | Transport.Punch =>
      match pkt.payload with
      | NetPayload.punchInfo pi =>
        let public_ports :=
          if pi.public_ports.isEmpty then [pi.public_port] else pi.public_ports
        let udp_ports :=
          if pi.udp_ports.isEmpty then [pi.local_port] else pi.udp_ports
        let peer_nat_info := NatInfo.new pi.public_ip_list public_ports
          pi.public_port_range (some pi.local_ip) pi.ipv6 udp_ports
          pi.tcp_port pi.nat_type
        let eff1 := { eff with
          peerNatInserts := eff.peerNatInserts ++ [(source, peer_nat_info)] }
        if pi.reply = false then
          let rpkt : NetPkt :=
            { version := 1, gateway_flag := false,
              protocol := Protocol.OtherTurn,
              transport_protocol := Transport.Punch, ttl := MAX_TTL,
              source_ttl := MAX_TTL, source := ctx.virtual_ip,
              destination := source,
              payload := NetPayload.punchInfo (mkPunchReply ctx.selfNat) }
          match ctx.encrypt rpkt with
          | Except.error e => (eff1, Except.error e)
          | Except.ok sealed =>
            let eff2 := { eff1 with punchDispatch :=
              eff1.punchDispatch ++ [(true, source, peer_nat_info)] }
            if ctx.punchAccepts then
              ({ eff2 with sends := eff2.sends ++ [(sealed, rk)] }, Except.ok ())
            else (eff2, Except.ok ())
        else
          ({ eff1 with punchDispatch :=
              eff1.punchDispatch ++ [(false, source, peer_nat_info)] },
            Except.ok ())
      | _ => (eff, Except.error IoErr.err)
    | _ => (eff, Except.ok ())

/-- Function `ClientPacketHandler::handle` (`client.rs` lines 69-97): decrypt,
stamp route freshness, dispatch by protocol.  The decryption outcome is
supplied by the cipher function `opener`. -/
def ClientPacketHandler.handle (ctx : HandlerCtx)
    (opener : NetPkt → Except IoErr NetPkt) (table : RouteTable)
    (pkt : NetPkt) (rk : RouteKey) : Effects × Except IoErr Unit :=
  match opener pkt with
  | Except.error e => (Effects.base table, Except.error e)
  | Except.ok p =>
    let eff0 := { Effects.base table with readTimeUpdates := [(p.source, rk)] }
    match p.protocol with
    | Protocol.Service => (eff0, Except.ok ())
    | Protocol.Error => (eff0, Except.ok ())
    | Protocol.Control => ClientPacketHandler.control ctx eff0 p rk
    | Protocol.IpTurn => ClientPacketHandler.ip_turn ctx eff0 p rk
    | Protocol.OtherTurn => ClientPacketHandler.other_turn ctx eff0 p rk
    | Protocol.Unknown _ => (eff0, Except.ok ())


/-!
### Punch engine state — `channel/punch.rs` `Punch`
-/

/-- Answers the punch engine reads from its `Context` and environment:
channel count, local NAT class, the `need_punch` gate answer for the
punched peer, and the outcome of each blocking TCP connect attempt. -/
structure ChannelContext where
  channel_num : Nat
  is_cone : Bool
  need_punch : Bool
  connectOk : SockAddr → Bool

/-- Structure `Punch` in `channel/punch.rs`: configuration plus the per-peer rolling
`port_index` into the shuffled global `port_vec`. -/
structure Punch where
  context : ChannelContext
  port_vec : List Nat
  port_index : List (Ipv4Addr × Nat)
  punch_model : PunchModel
  is_tcp : Bool

/-- Lookup in the `port_index` map. -/
def piLookup (m : List (Ipv4Addr × Nat)) (k : Ipv4Addr) : Option Nat :=
  (m.find? fun e => e.1 == k).map fun e => e.2

/-- Insert or overwrite in the `port_index` map. -/
def piInsert (m : List (Ipv4Addr × Nat)) (k : Ipv4Addr) (v : Nat) :
    List (Ipv4Addr × Nat) :=
  (k, v) :: m.filter fun e => !(e.1 == k)

/-- Effect trace of one `Punch::punch` run: the TCP connect attempts and
the UDP sends as (socket index, destination) pairs. -/
structure PunchTrace where
  tcpAttempts : List SockAddr
  udpSends : List (Nat × SockAddr)
deriving DecidableEq, Repr

/-- Sequential `connect_tcp` attempts that stop at the first success. -/
def tryConnectList (env : ChannelContext) : List SockAddr → List SockAddr × Bool
  | [] => ([], false)
  | a :: rest =>
    if env.connectOk a then ([a], true)
    else
      let r := tryConnectList env rest
      (a :: r.1, r.2)

/-- The TCP candidate order of `Punch::punch` lines 207-227: peer local
IPv6, peer local IPv4 and — only for a Cone peer with exactly one public
IP — that public IP with the peer TCP port. -/
def tcpCandidates (nat : NatInfo) : List SockAddr :=
  (match nat.local_tcp_ipv6addr with | some a => [a] | none => []) ++
  (match nat.local_tcp_ipv4addr with | some a => [a] | none => []) ++
  (if nat.nat_type == NatType.Cone && nat.public_ips.length == 1 then
    [SockAddr.v4 (nat.public_ips.getD 0 (Ipv4Addr.mk 0 0 0 0)) nat.tcp_port]
  else [])

/-- Local-network IPv4 sends of `Punch::punch` lines 229-233. -/
def localV4Sends (nat : NatInfo) (channel_num : Nat) : List (Nat × SockAddr) :=
  (List.range channel_num).filterMap fun i =>
    (nat.local_udp_ipv4addr i).map fun a => (i, a)

/-- Local IPv6 sends with the early return for `punch_model == IPv6`,
lines 235-245 (UDP sends are modelled as succeeding). -/
def v6Phase (model : PunchModel) (nat : NatInfo) (channel_num : Nat) :
    List (Nat × SockAddr) × Bool :=
  if model == PunchModel.IPv4 then ([], false)
  else
    let all := (List.range channel_num).filterMap fun i =>
      (nat.local_udp_ipv6addr i).map fun a => (i, a)
    if model == PunchModel.IPv6 then (all.take 1, !all.isEmpty)
    else (all, false)

/-- One peer public port against every public IP in the Cone branch,
lines 296-315: a Cone local sends on the matching channel, a Symmetric
local sends on every main socket (`try_send_all`). -/
def coneInner (env : ChannelContext) (index port : Nat) (ips : List Ipv4Addr) :
    List (Nat × SockAddr) :=
  ips.flatMap fun ip =>
    if port == 0 || ip.is_unspecified then []
    else if env.is_cone then [(index, SockAddr.v4 ip port)]
    else (List.range env.channel_num).map fun j => (j, SockAddr.v4 ip port)

/-- The Cone branch: indices up to `min(public_ports.len(), channel_num)`;
a Symmetric local breaks out after the first index. -/
def conePhase (env : ChannelContext) (nat : NatInfo) : List (Nat × SockAddr) :=
  let bound := min nat.public_ports.length env.channel_num
  let bound := if env.is_cone then bound else min bound 1
  (List.range bound).flatMap fun index =>
    coneInner env index (nat.public_ports.getD index 0) nat.public_ips

/-- The Symmetric branch, lines 247-293: the fine-range phase when
`public_port_range < 3 * 60`, then the broad phase continuing from the
peer persisted `port_index` over at most `k2` ports of `port_vec`
(`k2` is drawn from `600..800` by the caller), wrapping the rolling
index to 0 at the end of the vector.  Returns the sends and the updated
`port_index` map. -/
def symmetricPhase (p : Punch) (id : Ipv4Addr) (nat : NatInfo) (k2 : Nat)
    (finePerm : List Nat) : List (Nat × SockAddr) × List (Ipv4Addr × Nat) :=
  let fineList :=
    if nat.public_port_range < 60 * 3 then
      (finePhaseSends (nat.public_ports.headD 0) nat.public_port_range
        nat.public_ips finePerm).map fun d => (0, SockAddr.v4 d.1 d.2)
    else []
  let start := (piLookup p.port_index id).getD 0
  let pidx1 :=
    match piLookup p.port_index id with
    | some _ => p.port_index
    | none => piInsert p.port_index id 0
  let stop := min (start + k2) p.port_vec.length
  let slice := (p.port_vec.drop start).take (stop - start)
  let r := punch_symmetric slice nat.public_ips k2
  let idx0 := start + r.2
  let idx := if p.port_vec.length ≤ idx0 then 0 else idx0
  (fineList ++ r.1.map fun d => (0, SockAddr.v4 d.1 d.2), piInsert pidx1 id idx)

/-- Function `Punch::punch` (lines 202-319): the `need_punch` gate, the TCP
phase, local IPv4 and IPv6 sends, then the dispatch on the peer NAT
type.  Returns the effect trace, the updated engine state and the
result value. -/
def Punch.punch (p : Punch) (id : Ipv4Addr) (nat : NatInfo) (k2 : Nat)
    (finePerm : List Nat) : PunchTrace × Punch × Except IoErr Unit :=
  if p.context.need_punch = false then
    ({ tcpAttempts := [], udpSends := [] }, p, Except.ok ())
  else
    let tcpR :=
      if p.is_tcp && nat.tcp_port != 0 then tryConnectList p.context (tcpCandidates nat)
      else ([], false)
    if tcpR.2 then
      ({ tcpAttempts := tcpR.1, udpSends := [] }, p, Except.ok ())
    else
      let lv4 := localV4Sends nat p.context.channel_num
      let v6r := v6Phase p.punch_model nat p.context.channel_num
      if v6r.2 then
        ({ tcpAttempts := tcpR.1, udpSends := lv4 ++ v6r.1 }, p, Except.ok ())
      else
        match nat.nat_type with
        | NatType.Symmetric =>
          let symR := symmetricPhase p id nat k2 finePerm
          ({ tcpAttempts := tcpR.1, udpSends := lv4 ++ v6r.1 ++ symR.1 },
            { p with port_index := symR.2 }, Except.ok ())
        | NatType.Cone =>
          ({ tcpAttempts := tcpR.1,
             udpSends := lv4 ++ v6r.1 ++ conePhase p.context nat },
            p, Except.ok ())

/-!
### Punch requester — `handle/maintain/punch.rs`
-/

/-- Modelled from the spec: a peer record as the requester reads it —
virtual IP and online status (section 3; the full record lives in code
not under `src/`). -/
structure PeerDeviceInfo where
  virtual_ip : Ipv4Addr
  online : Bool
deriving DecidableEq, Repr

/-- The candidate filter of `punch0` (`maintain/punch.rs` lines
191-197): online peers with a strictly greater virtual IP. -/
def punch0Candidates (device_list : List PeerDeviceInfo)
    (current_ip : Ipv4Addr) : List PeerDeviceInfo :=
  device_list.filter fun info =>
    info.online && decide (ipNum current_ip < ipNum info.virtual_ip)

/-- The send loop of `punch0` (lines 210-236) over the shuffled
candidate list: re-check online, strict order and `need_punch`;
`count` is incremented before the test `count > 2`, so the loop breaks
before a third send. -/
def punch0Targets (needPunch : Ipv4Addr → Bool) (current_ip : Ipv4Addr) :
    List PeerDeviceInfo → Nat → List Ipv4Addr
  | [], _ => []
  | info :: rest, count =>
    if info.online = false then punch0Targets needPunch current_ip rest count
    else if ipNum info.virtual_ip ≤ ipNum current_ip then
      punch0Targets needPunch current_ip rest count
    else if needPunch info.virtual_ip = false then
      punch0Targets needPunch current_ip rest count
    else if 2 < count + 1 then []
    else info.virtual_ip :: punch0Targets needPunch current_ip rest (count + 1)

/-- Function `punch0`: one requester tick while online.  Each emitted `PunchInfo`
datagram has `reply = false` (set in `punch_packet`) and goes out with
`send_default` to the connect server; the send list records
(reply flag, target peer, destination address). -/
def punch0 (needPunch : Ipv4Addr → Bool) (current_ip : Ipv4Addr)
    (connect_server : SockAddr) (shuffled : List PeerDeviceInfo) :
    List (Bool × Ipv4Addr × SockAddr) :=
  (punch0Targets needPunch current_ip shuffled 0).map fun t =>
    (false, t, connect_server)

/-!
### TCP proxy — `ip_proxy/tcp_proxy.rs`
-/

/-- An IPv4 socket address as the proxy NAT map keys them
(`SocketAddrV4`). -/
abbrev AddrV4 := Ipv4Addr × Nat

/-- Structure `TcpProxy`: the ephemeral listener port and the NAT map. -/
structure TcpProxy where
  port : Nat
  nat_map : List (AddrV4 × AddrV4)
deriving DecidableEq, Repr

/-- Lookup in the NAT map (`HashMap::get`). -/
def natLookup (m : List (AddrV4 × AddrV4)) (k : AddrV4) : Option AddrV4 :=
  (m.find? fun e => e.1 == k).map fun e => e.2

/-- Insert or overwrite in the NAT map (`HashMap::insert`). -/
def natInsert (m : List (AddrV4 × AddrV4)) (k v : AddrV4) :
    List (AddrV4 × AddrV4) :=
  (k, v) :: m.filter fun e => !(e.1 == k)

/-- Function `TcpProxy::recv_handle` (lines 55-75): rewrite the inner TCP
destination port to the listener port, recompute the TCP checksum over
the (source, destination) pseudo-header, point the inner destination IP
at the overlay destination, recompute the IP checksum, record
`(source, source_port) → (orig_dst_ip, orig_dst_port)` in the NAT map
and report the packet as not consumed (`false`). -/
def TcpProxy.recv_handle (p : TcpProxy) (ipv4 : InnerIp)
    (source destination : Ipv4Addr) :
    Except IoErr (InnerIp × TcpProxy × Bool) :=
  match ipv4.payload with
  | InnerPayload.tcp seg =>
    let dest_ip := ipv4.destination_ip
    let source_port := seg.source_port
    let dest_port := seg.destination_port
    let seg1 := { seg with destination_port := p.port }
    let ck := tcpChecksum source destination seg1.source_port
      seg1.destination_port seg1.body
    let seg2 := { seg1 with checksum := ck }
    let ipv4A := InnerIp.update_checksum
      { ipv4 with payload := InnerPayload.tcp seg2, destination_ip := destination }
    let m2 := natInsert p.nat_map (source, source_port) (dest_ip, dest_port)
    Except.ok (ipv4A, { p with nat_map := m2 }, false)
  | _ => Except.error IoErr.err

/-- Function `TcpProxy::send_handle` (lines 77-93): look the inner TCP
destination up in the NAT map; on a hit rewrite the inner source to the
recorded original destination and recompute both checksums, otherwise
pass the packet through untouched. -/
def TcpProxy.send_handle (p : TcpProxy) (ipv4 : InnerIp) : Except IoErr InnerIp :=
  match ipv4.payload with
  | InnerPayload.tcp seg =>
    let dest_ip := ipv4.destination_ip
    match natLookup p.nat_map (dest_ip, seg.destination_port) with
    | some source_addr =>
      let seg1 := { seg with source_port := source_addr.2 }
      let ck := tcpChecksum source_addr.1 dest_ip seg1.source_port
        seg1.destination_port seg1.body
      let seg2 := { seg1 with checksum := ck }
      Except.ok (InnerIp.update_checksum
        { ipv4 with payload := InnerPayload.tcp seg2, source_ip := source_addr.1 })
    | none => Except.ok ipv4
  | _ => Except.error IoErr.err

/-! ## Theorems -/

/-- A list holding two distinct elements has length at least two. -/
theorem two_mem_one_lt_length {α : Type} {l : List α} {x y : α}
    (hx : x ∈ l) (hy : y ∈ l) (hxy : x ≠ y) : 1 < l.length := by
  match l with
  | [] => cases hx
  | [a] =>
      simp only [List.mem_singleton] at hx hy
      exact absurd (hx.trans hy.symm) hxy
  | a :: b :: t => simp [List.length_cons]

/-- Constructor `NatInfo.new` only keeps acceptable public IPs. -/
theorem new_publicIpsFiltered (ips : List Ipv4Addr) (ports : List Nat)
    (range : Nat) (l4 : Option Ipv4Addr) (i6 : Option Ipv6Addr)
    (udp : List Nat) (tcp : Nat) (nt : NatType) :
    publicIpsFiltered (NatInfo.new ips ports range l4 i6 udp tcp nt) := by
  intro ip hip
  simp only [NatInfo.new] at hip
  exact (List.mem_filter.mp hip).2

/-- Constructor `NatInfo.new` forces `Symmetric` whenever two distinct public IPs survive. -/
theorem new_forces_symmetric (ips : List Ipv4Addr) (ports : List Nat)
    (range : Nat) (l4 : Option Ipv4Addr) (i6 : Option Ipv6Addr)
    (udp : List Nat) (tcp : Nat) (nt : NatType) {x y : Ipv4Addr}
    (hx : x ∈ (NatInfo.new ips ports range l4 i6 udp tcp nt).public_ips)
    (hy : y ∈ (NatInfo.new ips ports range l4 i6 udp tcp nt).public_ips)
    (hxy : x ≠ y) :
    (NatInfo.new ips ports range l4 i6 udp tcp nt).nat_type = NatType.Symmetric := by
  simp only [NatInfo.new] at hx hy ⊢
  have hlen : 1 < (ips.filter keepPublicIp).length := two_mem_one_lt_length hx hy hxy
  simp [hlen]

/-- Function `NatInfo.update_addr` preserves the public-IP filter property. -/
theorem update_addr_publicIpsFiltered (n : NatInfo) (index : Nat)
    (ip : Ipv4Addr) (port : Nat) (h : publicIpsFiltered n) :
    publicIpsFiltered (n.update_addr index ip port) := by
  intro x hx
  simp only [NatInfo.update_addr] at hx
  by_cases hc : (!ip.is_multicast && !ip.is_broadcast && !ip.is_unspecified &&
      !ip.is_loopback && !ip.is_private && !n.public_ips.contains ip) = true
  · rw [if_pos hc] at hx
    rcases List.mem_append.mp hx with hmem | hmem
    · exact h x hmem
    · simp only [List.mem_singleton] at hmem
      subst hmem
      simp only [Bool.and_eq_true] at hc
      simp [keepPublicIp, hc.1.1.1.1.1, hc.1.1.1.1.2, hc.1.1.1.2, hc.1.1.2, hc.1.2]
  · rw [if_neg hc] at hx
    exact h x hx

/-- C3: two calls to `Handshake::send` on the same value less than 3 s
apart, the first of which actually sends and succeeds, put exactly one
handshake request on the wire: the second call returns `Ok` without
sending, whatever its own transport would have answered. -/
theorem C3_handshake_rate_limit (h0 : Handshake) (now1 now2 : Nat)
    (ok2 : Bool) (hguard : 3000 ≤ now1 - h0.time) (hmono : now1 ≤ now2)
    (hclose : now2 - now1 < 3000) :
    (h0.send now1 true).2.1 = true ∧
    (h0.send now1 true).2.2 = Except.ok () ∧
    ((h0.send now1 true).1.send now2 ok2).2.1 = false ∧
    ((h0.send now1 true).1.send now2 ok2).2.2 = Except.ok () ∧
    ((if (h0.send now1 true).2.1 then 1 else 0) +
        (if ((h0.send now1 true).1.send now2 ok2).2.1 then 1 else 0)) = 1 := by
  have hfirst : h0.send now1 true = (⟨now1⟩, true, Except.ok ()) := by
    unfold Handshake.send
    rw [if_neg (by omega)]
    simp
  rw [hfirst]
  have hsecond : Handshake.send ⟨now1⟩ now2 ok2 = (⟨now1⟩, false, Except.ok ()) := by
    unfold Handshake.send
    rw [if_pos (show now2 - now1 < 3000 by omega)]
  rw [hsecond]
  simp

/-- C3 witness: concrete instants 5 s and 6 s with the limiter primed at 0. -/
theorem C3_handshake_rate_limit_witness :
    ((Handshake.mk 0).send 5000 true).2.1 = true ∧
    ((Handshake.mk 0).send 5000 true).2.2 = Except.ok () ∧
    (((Handshake.mk 0).send 5000 true).1.send 6000 true).2.1 = false ∧
    (((Handshake.mk 0).send 5000 true).1.send 6000 true).2.2 = Except.ok () ∧
    ((if ((Handshake.mk 0).send 5000 true).2.1 then 1 else 0) +
        (if (((Handshake.mk 0).send 5000 true).1.send 6000 true).2.1 then 1
          else 0)) = 1 :=
  C3_handshake_rate_limit (Handshake.mk 0) 5000 6000 true (by decide)
    (by decide) (by decide)

/-- Lemma for the inner loop of `punch_symmetric` over a single public IP. -/
theorem punchSymInner_single (port max count : Nat) (ip : Ipv4Addr) :
    punchSymInner port max [ip] count =
      if count + 1 = max then ([], count + 1, true)
      else ([(ip, port)], count + 1, false) := by
  by_cases h : count + 1 = max <;> simp [punchSymInner, h]

/-- With a single public IP and `count < max`, `punch_symmetric` sends to
exactly the first `max - 1 - count` ports: the pair on which `count`
reaches `max` is cut before its send. -/
theorem punchSymOuter_single (ip : Ipv4Addr) (max origLen : Nat) :
    ∀ (ports : List Nat) (idx count : Nat), count < max →
      (punchSymOuter [ip] max origLen ports idx count).1 =
        (ports.take (max - 1 - count)).map fun p => (ip, p)
  | [], _, _, _ => by simp [punchSymOuter]
  | port :: rest, idx, count, h => by
      by_cases he : count + 1 = max
      · have h0 : max - 1 - count = 0 := by omega
        simp [punchSymOuter, punchSymInner_single, he, h0]
      · have hlt : count + 1 < max := by omega
        have ht : max - 1 - count = (max - 1 - (count + 1)) + 1 := by omega
        have ih := punchSymOuter_single ip max origLen rest (idx + 1) (count + 1) hlt
        simp [punchSymOuter, punchSymInner_single, he, ih, ht]

/-- The candidate vector has exactly `fineSpan` entries. -/
theorem fineNums_length (port range : Nat) :
    (fineNums port range).length = fineSpan port range := by
  simp [fineNums, fineSpan]

/-- The window is well ordered for any real first public port. -/
theorem fineMinPort_le (port range : Nat) (h1 : 1 ≤ port) (h2 : port ≤ 65535) :
    fineMinPort port range ≤ fineMaxPort port range := by
  unfold fineMinPort fineMaxPort
  split <;> split <;> omega

/-- The candidate vector holds no duplicate port. -/
theorem fineNums_nodup (port range : Nat) : (fineNums port range).Nodup := by
  unfold fineNums
  rw [List.nodup_append]
  refine ⟨List.nodup_range' _ _, List.nodup_singleton _, ?_⟩
  intro x hx hx1
  rw [List.mem_range'_1] at hx
  simp only [List.mem_singleton] at hx1
  omega

/-- Every candidate port lies inside the clamped window. -/
theorem fineNums_mem_bounds (port range : Nat) (h1 : 1 ≤ port)
    (h2 : port ≤ 65535) :
    ∀ x ∈ fineNums port range,
      fineMinPort port range ≤ x ∧ x ≤ fineMaxPort port range := by
  intro x hx
  have hle := fineMinPort_le port range h1 h2
  unfold fineNums at hx
  rcases List.mem_append.mp hx with h | h
  · have := List.mem_range'_1.mp h
    omega
  · simp only [List.mem_singleton] at h
    omega

/-- The clamped window endpoints written as the spec writes them. -/
theorem fineWindow_clamped (port range : Nat) :
    fineMinPort port range = max (port - range) 1 ∧
    fineMaxPort port range = min (port + range) 65535 := by
  unfold fineMinPort fineMaxPort
  constructor <;> split <;> omega

/-- C2: the claim as stated is false on the code.  In the spec's own
scenario S2 (`P = 50000`, `R = 12 < 180`, one public IP) the candidate
window `[49988, 50012]` holds only 25 ports, so the fine phase sends to
25 destinations, not 60 — here evaluated on the identity shuffle outcome,
a legal permutation of the candidate vector. -/
theorem C2_counterexample :
    (fineNums 50000 12).Perm (fineNums 50000 12) ∧
    (finePhaseSends 50000 12 [Ipv4Addr.mk 2 2 2 2] (fineNums 50000 12)).length = 25 ∧
    ¬(finePhaseSends 50000 12 [Ipv4Addr.mk 2 2 2 2]
        (fineNums 50000 12)).length = 60 := by
  refine ⟨List.Perm.refl _, by decide, by decide⟩

/-- C2 (amended): against a Symmetric peer with first public port `P`
(`1 ≤ P ≤ 65535`), range `R < 180` and a single public IP, the
fine-range phase sends the payload to exactly `min (fineSpan P R) 59`
ports — `2R+1` clamped ports when the window holds fewer than 60, and 59
(not 60: the early return in `punch_symmetric` cuts the pair on which
`count` reaches 60 before its send) otherwise — and every destination
uses the public IP, the sent ports are pairwise distinct, and each lies
inside `[max(P−R,1), min(P+R,65535)]`; this holds for every shuffle
outcome `perm`. -/
theorem C2_fine_phase (port range : Nat) (perm : List Nat) (ip : Ipv4Addr)
    (hp1 : 1 ≤ port) (hp2 : port ≤ 65535) (hr : range < 180)
    (hperm : perm.Perm (fineNums port range)) :
    (finePhaseSends port range [ip] perm).length = min (fineSpan port range) 59 ∧
    ((finePhaseSends port range [ip] perm).map Prod.snd).Nodup ∧
    ∀ d ∈ finePhaseSends port range [ip] perm,
      d.1 = ip ∧ max (port - range) 1 ≤ d.2 ∧ d.2 ≤ min (port + range) 65535 := by
  have hsends : finePhaseSends port range [ip] perm =
      ((perm.take (fineK port range)).take 59).map fun p => (ip, p) := by
    unfold finePhaseSends punch_symmetric
    rw [punchSymOuter_single ip 60 _ _ 0 0 (by omega)]
  have hlen : perm.length = fineSpan port range :=
    hperm.length_eq.trans (fineNums_length port range)
  refine ⟨?_, ?_, ?_⟩
  · rw [hsends]
    simp only [List.length_map, List.length_take, hlen]
    unfold fineK
    generalize fineSpan port range = s
    rcases lt_or_le 60 s with h | h
    · rw [if_pos h]; omega
    · rw [if_neg (not_lt.mpr h)]; omega
  · rw [hsends, List.map_map]
    have hid : (Prod.snd ∘ fun p => ((ip, p) : Ipv4Addr × Nat)) = id := rfl
    rw [hid, List.map_id]
    have hnd : perm.Nodup := hperm.nodup_iff.mpr (fineNums_nodup port range)
    exact List.Nodup.sublist
      ((List.take_sublist _ _).trans (List.take_sublist _ _)) hnd
  · intro d hd
    rw [hsends] at hd
    rcases List.mem_map.mp hd with ⟨p, hp, rfl⟩
    have hmem : p ∈ perm := List.take_subset _ _ (List.take_subset _ _ hp)
    have hb := fineNums_mem_bounds port range hp1 hp2 p (hperm.mem_iff.mp hmem)
    have hw := fineWindow_clamped port range
    exact ⟨rfl, by omega, by omega⟩

/-- C2 witness: the amended theorem evaluated in the spec scenario S2
(`P = 50000`, `R = 12`): 25 distinct in-window ports. -/
theorem C2_fine_phase_witness :
    (finePhaseSends 50000 12 [Ipv4Addr.mk 2 2 2 2]
        (fineNums 50000 12)).length = min (fineSpan 50000 12) 59 ∧
    ((finePhaseSends 50000 12 [Ipv4Addr.mk 2 2 2 2]
        (fineNums 50000 12)).map Prod.snd).Nodup ∧
    ∀ d ∈ finePhaseSends 50000 12 [Ipv4Addr.mk 2 2 2 2] (fineNums 50000 12),
      d.1 = Ipv4Addr.mk 2 2 2 2 ∧
        max (50000 - 12) 1 ≤ d.2 ∧ d.2 ≤ min (50000 + 12) 65535 :=
  C2_fine_phase 50000 12 (fineNums 50000 12) (Ipv4Addr.mk 2 2 2 2)
    (by decide) (by decide) (by decide) (List.Perm.refl _)

/-- C1: the claim as stated is false on the code.  Starting from
`NatInfo::new([1.1.1.1], …, Cone)` — one public IP, so the type stays
`Cone` — a call to `update_addr(0, 8.8.8.8, 50000)` pushes a second
distinct public IP but does not force `nat_type` to `Symmetric`. -/
theorem C1_counterexample :
    ((Ipv4Addr.mk 1 1 1 1) ∈
        ((NatInfo.new [Ipv4Addr.mk 1 1 1 1] [40000] 0 none none [40000] 0
          NatType.Cone).update_addr 0 (Ipv4Addr.mk 8 8 8 8) 50000).public_ips) ∧
    ((Ipv4Addr.mk 8 8 8 8) ∈
        ((NatInfo.new [Ipv4Addr.mk 1 1 1 1] [40000] 0 none none [40000] 0
          NatType.Cone).update_addr 0 (Ipv4Addr.mk 8 8 8 8) 50000).public_ips) ∧
    (Ipv4Addr.mk 1 1 1 1) ≠ (Ipv4Addr.mk 8 8 8 8) ∧
    ((NatInfo.new [Ipv4Addr.mk 1 1 1 1] [40000] 0 none none [40000] 0
          NatType.Cone).update_addr 0 (Ipv4Addr.mk 8 8 8 8) 50000).nat_type ≠
      NatType.Symmetric := by
  refine ⟨?_, ?_, ?_, ?_⟩ <;> decide

/-- C1 (amended): every `NatInfo` produced by `NatInfo::new` has only
acceptable public IPs and, when two distinct public IPs survive, its type
is `Symmetric`; `NatInfo::update_addr` preserves the public-IP filter
property (but, per the counterexample, not the Symmetric forcing). -/
theorem C1_nat_profile_normalization :
    (∀ (ips : List Ipv4Addr) (ports : List Nat) (range : Nat)
        (l4 : Option Ipv4Addr) (i6 : Option Ipv6Addr) (udp : List Nat)
        (tcp : Nat) (nt : NatType),
      publicIpsFiltered (NatInfo.new ips ports range l4 i6 udp tcp nt) ∧
      (∀ x ∈ (NatInfo.new ips ports range l4 i6 udp tcp nt).public_ips,
       ∀ y ∈ (NatInfo.new ips ports range l4 i6 udp tcp nt).public_ips,
        x ≠ y →
          (NatInfo.new ips ports range l4 i6 udp tcp nt).nat_type =
            NatType.Symmetric)) ∧
    (∀ (n : NatInfo) (index : Nat) (ip : Ipv4Addr) (port : Nat),
      publicIpsFiltered n → publicIpsFiltered (n.update_addr index ip port)) := by
  refine ⟨fun ips ports range l4 i6 udp tcp nt => ⟨?_, ?_⟩, ?_⟩
  · exact new_publicIpsFiltered ips ports range l4 i6 udp tcp nt
  · intro x hx y hy hxy
    exact new_forces_symmetric ips ports range l4 i6 udp tcp nt hx hy hxy
  · exact update_addr_publicIpsFiltered

/-- C1 witness: the amended theorem applied at concrete inputs — a
private IP is filtered by `new`, two surviving distinct IPs force
`Symmetric`, and `update_addr` keeps the filter property. -/
theorem C1_nat_profile_normalization_witness :
    publicIpsFiltered
      (NatInfo.new [Ipv4Addr.mk 1 1 1 1, Ipv4Addr.mk 10 0 0 1] [1] 0 none none
        [1] 0 NatType.Cone) ∧
    (NatInfo.new [Ipv4Addr.mk 1 1 1 1, Ipv4Addr.mk 2 2 2 2] [1] 0 none none
        [1] 0 NatType.Cone).nat_type = NatType.Symmetric ∧
    publicIpsFiltered
      ((NatInfo.new [Ipv4Addr.mk 1 1 1 1] [1] 0 none none [1] 0
        NatType.Cone).update_addr 0 (Ipv4Addr.mk 8 8 8 8) 2) := by
  refine ⟨(C1_nat_profile_normalization.1 _ _ _ _ _ _ _ _).1, ?_, ?_⟩
  · exact (C1_nat_profile_normalization.1 [Ipv4Addr.mk 1 1 1 1, Ipv4Addr.mk 2 2 2 2]
      [1] 0 none none [1] 0 NatType.Cone).2 (Ipv4Addr.mk 1 1 1 1) (by decide)
      (Ipv4Addr.mk 2 2 2 2) (by decide) (by decide)
  · exact C1_nat_profile_normalization.2
      (NatInfo.new [Ipv4Addr.mk 1 1 1 1] [1] 0 none none [1] 0 NatType.Cone)
      0 (Ipv4Addr.mk 8 8 8 8) 2 (by decide)


/-- C4: when `need_punch` answers false for the peer, `Punch::punch`
returns `Ok` immediately, with no UDP send on any socket, no TCP connect
attempt, and the engine state — in particular the per-peer `port_index`
— unchanged. -/
theorem C4_punch_gate (p : Punch) (id : Ipv4Addr) (nat : NatInfo)
    (k2 : Nat) (finePerm : List Nat) (h : p.context.need_punch = false) :
    p.punch id nat k2 finePerm =
      ({ tcpAttempts := [], udpSends := [] }, p, Except.ok ()) := by
  simp [Punch.punch, h]

/-- C4 witness: the gate evaluated on a concrete engine and peer. -/
theorem C4_punch_gate_witness :
    Punch.punch
      { context :=
          { channel_num := 1, is_cone := true, need_punch := false,
            connectOk := fun _ => false },
        port_vec := [5, 6], port_index := [], punch_model := PunchModel.IPv4,
        is_tcp := false }
      (Ipv4Addr.mk 10 26 0 3)
      (NatInfo.new [Ipv4Addr.mk 2 2 2 2] [50000] 12 none none [50000] 0
        NatType.Symmetric)
      700 [] =
      ({ tcpAttempts := [], udpSends := [] },
        { context :=
            { channel_num := 1, is_cone := true, need_punch := false,
              connectOk := fun _ => false },
          port_vec := [5, 6], port_index := [], punch_model := PunchModel.IPv4,
          is_tcp := false }, Except.ok ()) :=
  C4_punch_gate _ _ _ _ _ rfl

/-- C5: a Control/Pong carrying the 16-bit tag `t` is dropped silently —
no send, no route change — when the truncated current time is below `t`;
otherwise the handler adds or updates a route for the packet source with
rtt `now16 - t` and metric `source_ttl - ttl + 1`. -/
theorem C5_pong_rtt (ctx : HandlerCtx) (eff : Effects) (pkt : NetPkt)
    (rk : RouteKey) (t : Nat)
    (htp : pkt.transport_protocol = Transport.Pong)
    (hpl : pkt.payload = NetPayload.time16 t)
    (httl : pkt.ttl ≤ pkt.source_ttl) (hw : ctx.now16 < 65536) :
    (ctx.now16 < t →
      ClientPacketHandler.control ctx eff pkt rk = (eff, Except.ok ())) ∧
    (t ≤ ctx.now16 →
      ClientPacketHandler.control ctx eff pkt rk =
        ({ eff with
            routeTable := add_route eff.routeTable pkt.source
              { route_key := rk, metric := pkt.source_ttl - pkt.ttl + 1,
                rt := Int.ofNat (ctx.now16 - t) } }, Except.ok ())) := by
  constructor <;> intro h
  · simp [ClientPacketHandler.control, parseControl, htp, hpl, h]
  · simp [ClientPacketHandler.control, parseControl, htp, hpl, Nat.not_lt.mpr h]

/-- C5 witness: a Pong with tag 700 at truncated time 500 is dropped; a
Pong with tag 300 at time 500 installs rtt 200 with metric 2. -/
theorem C5_pong_rtt_witness :
    (ClientPacketHandler.control
      { virtual_ip := Ipv4Addr.mk 10 26 0 2, broadcast_ip := Ipv4Addr.mk 10 26 255 255,
        relay_only := false, allow := fun _ => true, hasProxy := false,
        proxy := fun i _ _ => Except.ok (false, i), encrypt := fun q => Except.ok q,
        punchAccepts := true,
        selfNat := NatInfo.new [] [1] 0 none none [1] 0 NatType.Cone, now16 := 500 }
      (Effects.base [])
      { version := 1, gateway_flag := false, protocol := Protocol.Control,
        transport_protocol := Transport.Pong, ttl := 14, source_ttl := 15,
        source := Ipv4Addr.mk 10 26 0 3, destination := Ipv4Addr.mk 10 26 0 2,
        payload := NetPayload.time16 700 }
      { index := 0, addr := SockAddr.v4 (Ipv4Addr.mk 2 2 2 2) 50000, is_tcp := false } =
      (Effects.base [], Except.ok ())) ∧
    (ClientPacketHandler.control
      { virtual_ip := Ipv4Addr.mk 10 26 0 2, broadcast_ip := Ipv4Addr.mk 10 26 255 255,
        relay_only := false, allow := fun _ => true, hasProxy := false,
        proxy := fun i _ _ => Except.ok (false, i), encrypt := fun q => Except.ok q,
        punchAccepts := true,
        selfNat := NatInfo.new [] [1] 0 none none [1] 0 NatType.Cone, now16 := 500 }
      (Effects.base [])
      { version := 1, gateway_flag := false, protocol := Protocol.Control,
        transport_protocol := Transport.Pong, ttl := 14, source_ttl := 15,
        source := Ipv4Addr.mk 10 26 0 3, destination := Ipv4Addr.mk 10 26 0 2,
        payload := NetPayload.time16 300 }
      { index := 0, addr := SockAddr.v4 (Ipv4Addr.mk 2 2 2 2) 50000, is_tcp := false } =
      ({ Effects.base [] with
          routeTable := add_route [] (Ipv4Addr.mk 10 26 0 3)
            { route_key :=
                { index := 0, addr := SockAddr.v4 (Ipv4Addr.mk 2 2 2 2) 50000,
                  is_tcp := false },
              metric := 15 - 14 + 1, rt := Int.ofNat (500 - 300) } },
        Except.ok ())) := by
  constructor
  · exact (C5_pong_rtt _ _ _ _ 700 rfl rfl (by decide) (by decide)).1 (by decide)
  · exact (C5_pong_rtt _ _ _ _ 300 rfl rfl (by decide) (by decide)).2 (by decide)

/-- C7: an inbound Control/PunchRequest is ignored in relay-only mode —
no reply, no route insertion; otherwise the handler answers with exactly
one PunchResponse whose current and source TTL are 1, sent on the same
route-key, and inserts a metric-1 route for the source when no route
with that route-key exists. -/
theorem C7_punch_request_relay (ctx : HandlerCtx) (eff : Effects)
    (pkt : NetPkt) (rk : RouteKey) (sealed : NetPkt)
    (htp : pkt.transport_protocol = Transport.PunchRequest)
    (hseal : ctx.encrypt (NetPkt.first_set_ttl
      { pkt with
        transport_protocol := Transport.PunchResponse,
        source := ctx.virtual_ip, destination := pkt.source } 1) =
      Except.ok sealed) :
    (ctx.relay_only = true →
      ClientPacketHandler.control ctx eff pkt rk = (eff, Except.ok ())) ∧
    (ctx.relay_only = false →
      ClientPacketHandler.control ctx eff pkt rk =
        ({ eff with
            sends := eff.sends ++ [(sealed, rk)],
            routeTable := add_route_if_absent eff.routeTable pkt.source
              (Route.from_default_rt rk 1) }, Except.ok ())) := by
  constructor <;> intro h
  · simp [ClientPacketHandler.control, parseControl, htp, h]
  · simp [ClientPacketHandler.control, parseControl, htp, h, hseal]

/-- C7 witness: concrete PunchRequest handled in both channel modes with
the identity cipher. -/
theorem C7_punch_request_relay_witness :
    (ClientPacketHandler.control
      { virtual_ip := Ipv4Addr.mk 10 26 0 2, broadcast_ip := Ipv4Addr.mk 10 26 255 255,
        relay_only := true, allow := fun _ => true, hasProxy := false,
        proxy := fun i _ _ => Except.ok (false, i), encrypt := fun q => Except.ok q,
        punchAccepts := true,
        selfNat := NatInfo.new [] [1] 0 none none [1] 0 NatType.Cone, now16 := 0 }
      (Effects.base [])
      { version := 1, gateway_flag := false, protocol := Protocol.Control,
        transport_protocol := Transport.PunchRequest, ttl := 1, source_ttl := 1,
        source := Ipv4Addr.mk 10 26 0 3, destination := Ipv4Addr.mk 10 26 0 2,
        payload := NetPayload.empty }
      { index := 0, addr := SockAddr.v4 (Ipv4Addr.mk 2 2 2 2) 50000, is_tcp := false } =
      (Effects.base [], Except.ok ())) ∧
    (ClientPacketHandler.control
      { virtual_ip := Ipv4Addr.mk 10 26 0 2, broadcast_ip := Ipv4Addr.mk 10 26 255 255,
        relay_only := false, allow := fun _ => true, hasProxy := false,
        proxy := fun i _ _ => Except.ok (false, i), encrypt := fun q => Except.ok q,
        punchAccepts := true,
        selfNat := NatInfo.new [] [1] 0 none none [1] 0 NatType.Cone, now16 := 0 }
      (Effects.base [])
      { version := 1, gateway_flag := false, protocol := Protocol.Control,
        transport_protocol := Transport.PunchRequest, ttl := 1, source_ttl := 1,
        source := Ipv4Addr.mk 10 26 0 3, destination := Ipv4Addr.mk 10 26 0 2,
        payload := NetPayload.empty }
      { index := 0, addr := SockAddr.v4 (Ipv4Addr.mk 2 2 2 2) 50000, is_tcp := false } =
      ({ Effects.base [] with
          sends := [(NetPkt.first_set_ttl
            { version := 1, gateway_flag := false, protocol := Protocol.Control,
              transport_protocol := Transport.PunchResponse, ttl := 1, source_ttl := 1,
              source := Ipv4Addr.mk 10 26 0 2, destination := Ipv4Addr.mk 10 26 0 3,
              payload := NetPayload.empty } 1,
            { index := 0, addr := SockAddr.v4 (Ipv4Addr.mk 2 2 2 2) 50000,
              is_tcp := false })],
          routeTable := add_route_if_absent [] (Ipv4Addr.mk 10 26 0 3)
            (Route.from_default_rt
              { index := 0, addr := SockAddr.v4 (Ipv4Addr.mk 2 2 2 2) 50000,
                is_tcp := false } 1) },
        Except.ok ())) := by
  constructor
  · exact (C7_punch_request_relay _ _ _ _
      (NetPkt.first_set_ttl
        { version := 1, gateway_flag := false, protocol := Protocol.Control,
          transport_protocol := Transport.PunchResponse, ttl := 1, source_ttl := 1,
          source := Ipv4Addr.mk 10 26 0 2, destination := Ipv4Addr.mk 10 26 0 3,
          payload := NetPayload.empty } 1)
      rfl rfl).1 rfl
  · exact (C7_punch_request_relay _ _ _ _
      (NetPkt.first_set_ttl
        { version := 1, gateway_flag := false, protocol := Protocol.Control,
          transport_protocol := Transport.PunchResponse, ttl := 1, source_ttl := 1,
          source := Ipv4Addr.mk 10 26 0 2, destination := Ipv4Addr.mk 10 26 0 3,
          payload := NetPayload.empty } 1)
      rfl rfl).2 rfl

/-- C8: when decryption of an inbound packet fails, `handle` returns the
error before `update_read_time` is reached: the read-time list is empty,
nothing is sent or written and the route table is untouched. -/
theorem C8_decrypt_error_drop (ctx : HandlerCtx)
    (opener : NetPkt → Except IoErr NetPkt) (table : RouteTable)
    (pkt : NetPkt) (rk : RouteKey) (e : IoErr)
    (h : opener pkt = Except.error e) :
    ClientPacketHandler.handle ctx opener table pkt rk =
      (Effects.base table, Except.error e) := by
  simp [ClientPacketHandler.handle, h]

/-- C8 witness: a failing cipher on a concrete packet produces the bare
error with no effects. -/
theorem C8_decrypt_error_drop_witness :
    ClientPacketHandler.handle
      { virtual_ip := Ipv4Addr.mk 10 26 0 2, broadcast_ip := Ipv4Addr.mk 10 26 255 255,
        relay_only := false, allow := fun _ => true, hasProxy := false,
        proxy := fun i _ _ => Except.ok (false, i), encrypt := fun q => Except.ok q,
        punchAccepts := true,
        selfNat := NatInfo.new [] [1] 0 none none [1] 0 NatType.Cone, now16 := 0 }
      (fun _ => Except.error IoErr.err)
      [((Ipv4Addr.mk 10 26 0 3),
        Route.from_default_rt
          { index := 0, addr := SockAddr.v4 (Ipv4Addr.mk 2 2 2 2) 50000,
            is_tcp := false } 1)]
      { version := 1, gateway_flag := false, protocol := Protocol.Control,
        transport_protocol := Transport.Ping, ttl := 15, source_ttl := 15,
        source := Ipv4Addr.mk 10 26 0 3, destination := Ipv4Addr.mk 10 26 0 2,
        payload := NetPayload.time16 1 }
      { index := 0, addr := SockAddr.v4 (Ipv4Addr.mk 2 2 2 2) 50000, is_tcp := false } =
      (Effects.base
        [((Ipv4Addr.mk 10 26 0 3),
          Route.from_default_rt
            { index := 0, addr := SockAddr.v4 (Ipv4Addr.mk 2 2 2 2) 50000,
              is_tcp := false } 1)],
        Except.error IoErr.err) :=
  C8_decrypt_error_drop _ _ _ _ _ IoErr.err rfl


/-- C6: an IpTurn/Ipv4 packet whose inner IPv4 payload is an ICMP
EchoRequest aimed at the overlay destination is answered in place:
exactly one reply goes out on the same route-key, carrying kind
EchoReply with the ICMP checksum recomputed, the inner and overlay
source/destination swapped and the IP header checksum recomputed, after
re-sealing with the client cipher — and nothing is written to the tun
device. -/
theorem C6_icmp_reflection (ctx : HandlerCtx) (eff : Effects)
    (pkt : NetPkt) (rk : RouteKey) (ipv4 : InnerIp) (ic : IcmpPkt)
    (sealed : NetPkt)
    (htp : pkt.transport_protocol = Transport.Ipv4)
    (hpl : pkt.payload = NetPayload.inner ipv4)
    (hicmp : ipv4.payload = InnerPayload.icmp ic)
    (hkind : ic.kind = IcmpKind.EchoRequest)
    (hdst : ipv4.destination_ip = pkt.destination)
    (hsrc : ipv4.source_ip = pkt.source)
    (hseal : ctx.encrypt
      { pkt with
        payload := NetPayload.inner (InnerIp.update_checksum
          { ipv4 with
            payload := InnerPayload.icmp
              (IcmpPkt.update_checksum { ic with kind := IcmpKind.EchoReply }),
            source_ip := pkt.destination, destination_ip := pkt.source }),
        source := pkt.destination, destination := pkt.source } =
      Except.ok sealed) :
    ClientPacketHandler.ip_turn ctx eff pkt rk =
      ({ eff with sends := eff.sends ++ [(sealed, rk)] }, Except.ok ()) := by
  unfold ClientPacketHandler.ip_turn
  rw [htp] at hseal
  rw [htp, hpl]
  simp [hicmp, hdst, hkind, hseal]

/-- C6 witness: a concrete ping to the overlay destination under the
identity cipher, reflected with zero tun writes. -/
theorem C6_icmp_reflection_witness :
    ClientPacketHandler.ip_turn
      { virtual_ip := Ipv4Addr.mk 10 26 0 2, broadcast_ip := Ipv4Addr.mk 10 26 255 255,
        relay_only := false, allow := fun _ => true, hasProxy := false,
        proxy := fun i _ _ => Except.ok (false, i), encrypt := fun q => Except.ok q,
        punchAccepts := true,
        selfNat := NatInfo.new [] [1] 0 none none [1] 0 NatType.Cone, now16 := 0 }
      (Effects.base [])
      { version := 1, gateway_flag := false, protocol := Protocol.IpTurn,
        transport_protocol := Transport.Ipv4, ttl := 15, source_ttl := 15,
        source := Ipv4Addr.mk 10 26 0 3, destination := Ipv4Addr.mk 10 26 0 2,
        payload := NetPayload.inner
          { source_ip := Ipv4Addr.mk 10 26 0 3,
            destination_ip := Ipv4Addr.mk 10 26 0 2, header_checksum := 0,
            payload := InnerPayload.icmp
              { kind := IcmpKind.EchoRequest, checksum := 0, body := 77 } } }
      { index := 0, addr := SockAddr.v4 (Ipv4Addr.mk 2 2 2 2) 50000, is_tcp := false } =
      ({ Effects.base [] with
          sends :=
            [({ version := 1, gateway_flag := false, protocol := Protocol.IpTurn,
                transport_protocol := Transport.Ipv4, ttl := 15, source_ttl := 15,
                source := Ipv4Addr.mk 10 26 0 2, destination := Ipv4Addr.mk 10 26 0 3,
                payload := NetPayload.inner (InnerIp.update_checksum
                  { source_ip := Ipv4Addr.mk 10 26 0 2,
                    destination_ip := Ipv4Addr.mk 10 26 0 3, header_checksum := 0,
                    payload := InnerPayload.icmp
                      (IcmpPkt.update_checksum
                        { kind := IcmpKind.EchoReply, checksum := 0, body := 77 }) }) },
              { index := 0, addr := SockAddr.v4 (Ipv4Addr.mk 2 2 2 2) 50000,
                is_tcp := false })] },
        Except.ok ()) := by
  exact C6_icmp_reflection _ _ _ _
    { source_ip := Ipv4Addr.mk 10 26 0 3, destination_ip := Ipv4Addr.mk 10 26 0 2,
      header_checksum := 0,
      payload := InnerPayload.icmp
        { kind := IcmpKind.EchoRequest, checksum := 0, body := 77 } }
    { kind := IcmpKind.EchoRequest, checksum := 0, body := 77 }
    _ rfl rfl rfl rfl rfl rfl rfl


/-- The requester loop never emits more than `2 - count` further sends. -/
theorem punch0Targets_length (np : Ipv4Addr → Bool) (cur : Ipv4Addr) :
    ∀ (l : List PeerDeviceInfo) (count : Nat),
      (punch0Targets np cur l count).length ≤ 2 - count
  | [], count => by simp [punch0Targets]
  | info :: rest, count => by
      unfold punch0Targets
      split_ifs with h1 h2 h3 h4
      · exact punch0Targets_length np cur rest count
      · exact punch0Targets_length np cur rest count
      · exact punch0Targets_length np cur rest count
      · simp
      · have ih := punch0Targets_length np cur rest (count + 1)
        simp only [List.length_cons]
        omega

/-- Every target the requester loop picks passed the three re-checks and
comes from the traversed list as an online record. -/
theorem punch0Targets_mem (np : Ipv4Addr → Bool) (cur : Ipv4Addr) :
    ∀ (l : List PeerDeviceInfo) (count : Nat) (t : Ipv4Addr),
      t ∈ punch0Targets np cur l count →
        np t = true ∧ ipNum cur < ipNum t ∧
          ∃ info ∈ l, info.virtual_ip = t ∧ info.online = true
  | [], count, t => by simp [punch0Targets]
  | info :: rest, count, t => by
      unfold punch0Targets
      split_ifs with h1 h2 h3 h4
      · intro h
        obtain ⟨hnp, hlt, info2, hmem, hrest⟩ := punch0Targets_mem np cur rest count t h
        exact ⟨hnp, hlt, info2, List.mem_cons_of_mem _ hmem, hrest⟩
      · intro h
        obtain ⟨hnp, hlt, info2, hmem, hrest⟩ := punch0Targets_mem np cur rest count t h
        exact ⟨hnp, hlt, info2, List.mem_cons_of_mem _ hmem, hrest⟩
      · intro h
        obtain ⟨hnp, hlt, info2, hmem, hrest⟩ := punch0Targets_mem np cur rest count t h
        exact ⟨hnp, hlt, info2, List.mem_cons_of_mem _ hmem, hrest⟩
      · intro h
        simp at h
      · intro h
        rcases List.mem_cons.mp h with rfl | h
        · refine ⟨by simpa using h3, by omega, info, List.mem_cons_self _ _, rfl, ?_⟩
          simpa using h1
        · obtain ⟨hnp, hlt, info2, hmem, hrest⟩ :=
            punch0Targets_mem np cur rest (count + 1) t h
          exact ⟨hnp, hlt, info2, List.mem_cons_of_mem _ hmem, hrest⟩

/-- C9: one requester tick while online sends at most two `PunchInfo`
datagrams; each carries `reply = false`, goes to the connect server, and
its target is an online device-list peer with virtual IP strictly above
the local one that still needs punching — whatever order the shuffle
produced. -/
theorem C9_punch_requester (needPunch : Ipv4Addr → Bool)
    (current_ip : Ipv4Addr) (connect_server : SockAddr)
    (device_list shuffled : List PeerDeviceInfo)
    (hperm : shuffled.Perm (punch0Candidates device_list current_ip)) :
    (punch0 needPunch current_ip connect_server shuffled).length ≤ 2 ∧
    ∀ s ∈ punch0 needPunch current_ip connect_server shuffled,
      s.1 = false ∧ s.2.2 = connect_server ∧ needPunch s.2.1 = true ∧
      ipNum current_ip < ipNum s.2.1 ∧
      ∃ info ∈ device_list, info.virtual_ip = s.2.1 ∧ info.online = true := by
  constructor
  · have h := punch0Targets_length needPunch current_ip shuffled 0
    simpa [punch0] using h
  · intro s hs
    unfold punch0 at hs
    rcases List.mem_map.mp hs with ⟨t, ht, rfl⟩
    obtain ⟨hnp, hlt, info, hmem, hip, hon⟩ :=
      punch0Targets_mem needPunch current_ip shuffled 0 t ht
    have hmem2 : info ∈ punch0Candidates device_list current_ip :=
      hperm.mem_iff.mp hmem
    have hmem3 : info ∈ device_list := List.mem_of_mem_filter hmem2
    exact ⟨rfl, rfl, hnp, hlt, info, hmem3, hip, hon⟩

/-- C9 witness: three eligible peers but only two sends, both to the
connect server. -/
theorem C9_punch_requester_witness :
    (punch0 (fun _ => true) (Ipv4Addr.mk 10 26 0 2)
      (SockAddr.v4 (Ipv4Addr.mk 9 9 9 9) 29872)
      [{ virtual_ip := Ipv4Addr.mk 10 26 0 3, online := true },
       { virtual_ip := Ipv4Addr.mk 10 26 0 4, online := true },
       { virtual_ip := Ipv4Addr.mk 10 26 0 5, online := true }]).length ≤ 2 ∧
    ∀ s ∈ punch0 (fun _ => true) (Ipv4Addr.mk 10 26 0 2)
      (SockAddr.v4 (Ipv4Addr.mk 9 9 9 9) 29872)
      [{ virtual_ip := Ipv4Addr.mk 10 26 0 3, online := true },
       { virtual_ip := Ipv4Addr.mk 10 26 0 4, online := true },
       { virtual_ip := Ipv4Addr.mk 10 26 0 5, online := true }],
      s.1 = false ∧ s.2.2 = SockAddr.v4 (Ipv4Addr.mk 9 9 9 9) 29872 ∧
      (fun _ => true) s.2.1 = true ∧
      ipNum (Ipv4Addr.mk 10 26 0 2) < ipNum s.2.1 ∧
      ∃ info ∈ [{ virtual_ip := Ipv4Addr.mk 10 26 0 3, online := true },
        { virtual_ip := Ipv4Addr.mk 10 26 0 4, online := true },
        ({ virtual_ip := Ipv4Addr.mk 10 26 0 5, online := true } : PeerDeviceInfo)],
        info.virtual_ip = s.2.1 ∧ info.online = true :=
  C9_punch_requester (fun _ => true) (Ipv4Addr.mk 10 26 0 2)
    (SockAddr.v4 (Ipv4Addr.mk 9 9 9 9) 29872)
    [{ virtual_ip := Ipv4Addr.mk 10 26 0 3, online := true },
     { virtual_ip := Ipv4Addr.mk 10 26 0 4, online := true },
     { virtual_ip := Ipv4Addr.mk 10 26 0 5, online := true }]
    [{ virtual_ip := Ipv4Addr.mk 10 26 0 3, online := true },
     { virtual_ip := Ipv4Addr.mk 10 26 0 4, online := true },
     { virtual_ip := Ipv4Addr.mk 10 26 0 5, online := true }]
    (by decide)

/-- NAT-map lookup immediately after an insert finds that entry. -/
theorem natLookup_insert (m : List (AddrV4 × AddrV4)) (k v : AddrV4) :
    natLookup (natInsert m k v) k = some v := by
  simp [natLookup, natInsert]

/-- C10: the TCP proxy NAT rewrite is a round trip.  `recv_handle` on a
packet with inner source `(s, sp)` and inner destination `(d, dp)`
returns it unconsumed with the destination port moved to the listener
port and both checksums recomputed, and records `(s, sp) → (d, dp)`;
afterwards `send_handle` rewrites the inner source of any packet
addressed to `(s, sp)` to `(d, dp)`, recomputing both checksums, while a
packet whose inner destination is no NAT-map key passes through
unchanged. -/
theorem C10_tcp_proxy_nat (p : TcpProxy) (ipv4 : InnerIp) (seg : TcpSeg)
    (destination : Ipv4Addr)
    (hpl : ipv4.payload = InnerPayload.tcp seg) :
    ∃ out p2,
      p.recv_handle ipv4 ipv4.source_ip destination =
        Except.ok (out, p2, false) ∧
      natLookup p2.nat_map (ipv4.source_ip, seg.source_port) =
        some (ipv4.destination_ip, seg.destination_port) ∧
      (∀ (q : InnerIp) (sg : TcpSeg), q.payload = InnerPayload.tcp sg →
        q.destination_ip = ipv4.source_ip →
        sg.destination_port = seg.source_port →
        p2.send_handle q = Except.ok (InnerIp.update_checksum
          { q with
            payload := InnerPayload.tcp
              { sg with
                source_port := seg.destination_port,
                checksum := tcpChecksum ipv4.destination_ip q.destination_ip
                  seg.destination_port sg.destination_port sg.body },
            source_ip := ipv4.destination_ip })) ∧
      (∀ (q : InnerIp) (sg : TcpSeg), q.payload = InnerPayload.tcp sg →
        natLookup p2.nat_map (q.destination_ip, sg.destination_port) = none →
        p2.send_handle q = Except.ok q) := by
  refine ⟨InnerIp.update_checksum
      { ipv4 with
        payload := InnerPayload.tcp
          { seg with
            destination_port := p.port,
            checksum := tcpChecksum ipv4.source_ip destination
              seg.source_port p.port seg.body },
        destination_ip := destination },
    { p with
      nat_map := natInsert p.nat_map (ipv4.source_ip, seg.source_port)
          (ipv4.destination_ip, seg.destination_port) }, ?_, ?_, ?_, ?_⟩
  · unfold TcpProxy.recv_handle
    rw [hpl]
  · exact natLookup_insert _ _ _
  · intro q sg hq hqd hqp
    unfold TcpProxy.send_handle
    simp only [hq, hqd, hqp, natLookup_insert]
  · intro q sg hq hnone
    unfold TcpProxy.send_handle
    simp only [hq]
    rw [hnone]

/-- C10 witness: a concrete flow 10.26.0.2:12345 → 93.184.216.34:80
through listener port 40000, with the return path rewritten and an
unrelated packet passed through. -/
theorem C10_tcp_proxy_nat_witness :
    ∃ out p2,
      TcpProxy.recv_handle { port := 40000, nat_map := [] }
        { source_ip := Ipv4Addr.mk 10 26 0 2,
          destination_ip := Ipv4Addr.mk 93 184 216 34, header_checksum := 0,
          payload := InnerPayload.tcp
            { source_port := 12345, destination_port := 80, checksum := 0,
              body := 3 } }
        (Ipv4Addr.mk 10 26 0 2) (Ipv4Addr.mk 10 26 0 9) =
        Except.ok (out, p2, false) ∧
      natLookup p2.nat_map (Ipv4Addr.mk 10 26 0 2, 12345) =
        some (Ipv4Addr.mk 93 184 216 34, 80) ∧
      (∀ (q : InnerIp) (sg : TcpSeg), q.payload = InnerPayload.tcp sg →
        q.destination_ip = Ipv4Addr.mk 10 26 0 2 →
        sg.destination_port = 12345 →
        p2.send_handle q = Except.ok (InnerIp.update_checksum
          { q with
            payload := InnerPayload.tcp
              { sg with
                source_port := 80,
                checksum := tcpChecksum (Ipv4Addr.mk 93 184 216 34)
                  q.destination_ip 80 sg.destination_port sg.body },
            source_ip := Ipv4Addr.mk 93 184 216 34 })) ∧
      (∀ (q : InnerIp) (sg : TcpSeg), q.payload = InnerPayload.tcp sg →
        natLookup p2.nat_map (q.destination_ip, sg.destination_port) = none →
        p2.send_handle q = Except.ok q) :=
  C10_tcp_proxy_nat { port := 40000, nat_map := [] }
    { source_ip := Ipv4Addr.mk 10 26 0 2,
      destination_ip := Ipv4Addr.mk 93 184 216 34, header_checksum := 0,
      payload := InnerPayload.tcp
        { source_port := 12345, destination_port := 80, checksum := 0,
          body := 3 } }
    { source_port := 12345, destination_port := 80, checksum := 0, body := 3 }
    (Ipv4Addr.mk 10 26 0 9) rfl

end Vnt
